import Mathlib

/-!
Shallow embedding of the genealogy-memory tool server (src/server.py).

The server exposes tool operations over a relational store.  We model the
store as explicit lists of rows (one list per table) threaded through each
operation, and the uniform response envelope as an inductive `Resp`.
External nondeterminism is passed in as arguments: generated identifiers
(`uuid.uuid4()`), the clock (`NOW()`), and the HTTP / filesystem effects of
the attachment fetcher (an `Eff` oracle).  Python falsy-to-NULL coercions
(`x or None`) are modelled by `strToOpt` / `intToOpt`.  Opening a database
connection (`with db_conn() ...`) is modelled by incrementing a `connOpens`
counter in the state, so that "no connection is opened" is expressible.
-/

/-- Response envelope: `ok(data)` is `{status: "ok", data}` and
`err(code, details)` is `{status: "error", error: code, details}`
(server.py lines 34-39).  Details are modelled as a string-keyed list. -/
inductive Resp (α : Type) where
  | ok (data : α)
  | err (code : String) (details : List (String × String))
deriving DecidableEq

/-- Python `s or None` for strings: empty string becomes NULL. -/
def strToOpt (s : String) : Option String :=
  if s = "" then none else some s

/-- Python `n or None` for integers: zero becomes NULL. -/
def intToOpt (n : Int) : Option Int :=
  if n = 0 then none else some n

/-- Row of the `persons` table.  Columns not set by `add_person`
(`verified`, `research_status`, `research_notes`, `possible_duplicate_of`)
start at their schema defaults (false / NULL). -/
structure PersonRow where
  person_id : String
  given_name : Option String
  pfx : Option String
  surname : Option String
  gender : Option String
  birth_year_estimate : Option Int
  death_year_estimate : Option Int
  notes : Option String
  full_name_normalized : Option String
  confidence_score : Rat
  verified : Bool
  research_status : Option String
  research_notes : Option String
  possible_duplicate_of : Option String
deriving DecidableEq

/-- Row of the `events` table. -/
structure EventRow where
  event_id : String
  person_id : String
  event_type : String
  date_literal : Option String
  year : Option Int
  month : Option Int
  day : Option Int
  place : Option String
  country : Option String
  source_id : Option String
  notes : Option String
deriving DecidableEq

/-- Row of the `relationships` table. -/
structure RelationshipRow where
  relationship_id : String
  person_id_a : String
  person_id_b : String
  relation_type : String
  confidence_score : Rat
  notes : Option String
deriving DecidableEq

/-- Row of the `attachments` table. -/
structure AttachmentRow where
  attachment_id : String
  person_id : Option String
  source_id : Option String
  file_name : Option String
  file_type : Option String
  file_path : Option String
  description : Option String
  download_url : Option String
  should_fetch : Bool
  fetched : Bool
deriving DecidableEq

/-- Row of the `crawl_log` table (the generated `crawl_id` column is not
read by any modelled operation and is omitted).  Timestamps are abstract
clock values. -/
structure CrawlRow where
  url : String
  http_status : Int
  content_hash : Option String
  notes : Option String
  processed : Bool
  first_seen : Nat
  last_seen : Nat
deriving DecidableEq

/-- The relational store plus a counter of database connections opened. -/
structure DB where
  persons : List PersonRow
  events : List EventRow
  relationships : List RelationshipRow
  attachments : List AttachmentRow
  crawlLog : List CrawlRow
  connOpens : Nat
deriving DecidableEq

/-- An empty database. -/
def emptyDB : DB := ⟨[], [], [], [], [], 0⟩

/-- Success payload of `add_person`. -/
structure PersonIdData where
  person_id : String
deriving DecidableEq

/-- Tool `add_person` (server.py lines 46-88): validates that at least one
of `given_name`/`surname` is non-empty, else returns `missing_name` before
touching the database; otherwise inserts one row with falsy fields
normalized to NULL and the confidence score stored as passed. -/
def add_person (pid given_name pfx surname gender : String)
    (birth_year_estimate death_year_estimate : Int)
    (notes full_name_normalized : String) (confidence_score : Rat)
    (db : DB) : DB × Resp PersonIdData :=
  if given_name = "" ∧ surname = "" then
    (db, Resp.err "missing_name" [("message", "At least given_name or surname is required")])
  else
    let row : PersonRow :=
      { person_id := pid
        given_name := strToOpt given_name
        pfx := strToOpt pfx
        surname := strToOpt surname
        gender := strToOpt gender
        birth_year_estimate := intToOpt birth_year_estimate
        death_year_estimate := intToOpt death_year_estimate
        notes := strToOpt notes
        full_name_normalized := strToOpt full_name_normalized
        confidence_score := confidence_score
        verified := false
        research_status := none
        research_notes := none
        possible_duplicate_of := none }
    ({ db with persons := db.persons ++ [row], connOpens := db.connOpens + 1 },
     Resp.ok ⟨pid⟩)

/-- Limit clamp used by `find_persons_simple` (server.py line 115:
`limit = max(1, min(limit, 100))`). -/
def clampedLimit (limit : Int) : Int := max 1 (min limit 100)

/-- Case-sensitive substring occurrence on character lists. -/
def listContains (needle : List Char) : List Char → Bool
  | [] => needle == ([] : List Char)
  | c :: rest =>
      needle == List.take needle.length (c :: rest) || listContains needle rest

/-- SQL `field ILIKE %q%`: case-insensitive substring match, false on NULL
(the `%` characters of the pattern are treated literally inside `q`). -/
def ilike (field : Option String) (q : String) : Bool :=
  match field with
  | none => false
  | some s => listContains q.toLower.data s.toLower.data

/-- Order on nullable strings with NULLS LAST (SQL `ORDER BY x NULLS LAST`). -/
def optStrLT (a b : Option String) : Bool :=
  match a, b with
  | none, _ => false
  | some _, none => true
  | some x, some y => decide (x < y)

/-- Row order of `find_persons_simple`: `ORDER BY surname NULLS LAST,
given_name NULLS LAST` (ties left arbitrary). -/
def personLE (p q : PersonRow) : Bool :=
  optStrLT p.surname q.surname ||
    (p.surname == q.surname &&
      (optStrLT p.given_name q.given_name || p.given_name == q.given_name))

/-- Propositional form of `personLE`, for Mathlib's insertion sort. -/
def personRel (p q : PersonRow) : Prop := personLE p q = true

instance : DecidableRel personRel :=
  fun p q => inferInstanceAs (Decidable (personLE p q = true))

/-- Success payload of `find_persons_simple`. -/
structure PersonsData where
  count : Nat
  persons : List PersonRow
deriving DecidableEq

/-- Tool `find_persons_simple` (server.py lines 104-130): validates the
query, clamps the limit to 1..100, selects rows whose surname, given name
or normalized full name contains the query case-insensitively, ordered by
surname then given name with NULLS LAST, truncated to the clamped limit. -/
def find_persons_simple (name_query : String) (limit : Int) (db : DB) :
    DB × Resp PersonsData :=
  if name_query.trim = "" then
    (db, Resp.err "missing_query" [("message", "name_query is required")])
  else
    let rows :=
      (((db.persons.filter (fun p =>
          ilike p.surname name_query || ilike p.given_name name_query ||
            ilike p.full_name_normalized name_query)).insertionSort
        personRel).take (clampedLimit limit).toNat)
    ({ db with connOpens := db.connOpens + 1 }, Resp.ok ⟨rows.length, rows⟩)

/-- Strict order on nullable integers with NULL greatest (NULLS LAST). -/
def optLT (a b : Option Int) : Bool :=
  match a, b with
  | none, _ => false
  | some _, none => true
  | some x, some y => decide (x < y)

/-- Non-strict order on nullable integers with NULL greatest (NULLS LAST). -/
def optLE (a b : Option Int) : Bool :=
  match a, b with
  | _, none => true
  | none, some _ => false
  | some x, some y => decide (x ≤ y)

/-- Row order of `list_person_events`: SQL `ORDER BY year NULLS LAST,
month NULLS LAST, day NULLS LAST` as a lexicographic comparison. -/
def eventLE (e1 e2 : EventRow) : Bool :=
  optLT e1.year e2.year ||
    (e1.year == e2.year &&
      (optLT e1.month e2.month ||
        (e1.month == e2.month && optLE e1.day e2.day)))

/-- Propositional form of `eventLE`, for Mathlib's insertion sort. -/
def eventRel (e1 e2 : EventRow) : Prop := eventLE e1 e2 = true

instance : DecidableRel eventRel :=
  fun e1 e2 => inferInstanceAs (Decidable (eventLE e1 e2 = true))

instance : IsTrans EventRow eventRel :=
  ⟨fun a b c hab hbc => by
    have hLTt : ∀ {x y z : Option Int}, optLT x y = true → optLT y z = true →
        optLT x z = true := by
      intro x y z h1 h2
      cases x <;> cases y <;> cases z <;> simp_all [optLT] <;> omega
    have hLEt : ∀ {x y z : Option Int}, optLE x y = true → optLE y z = true →
        optLE x z = true := by
      intro x y z h1 h2
      cases x <;> cases y <;> cases z <;> simp_all [optLE] <;> omega
    simp only [eventRel, eventLE, Bool.or_eq_true, Bool.and_eq_true,
      beq_iff_eq] at hab hbc ⊢
    rcases hab with hy | ⟨hy, hm⟩
    · rcases hbc with hy2 | ⟨hy2, _⟩
      · exact Or.inl (hLTt hy hy2)
      · exact Or.inl (by rw [← hy2]; exact hy)
    · rcases hbc with hy2 | ⟨hy2, hm2⟩
      · exact Or.inl (by rw [hy]; exact hy2)
      · refine Or.inr ⟨hy.trans hy2, ?_⟩
        rcases hm with hm | ⟨hm, hd⟩
        · rcases hm2 with hm2 | ⟨hm2, _⟩
          · exact Or.inl (hLTt hm hm2)
          · exact Or.inl (by rw [← hm2]; exact hm)
        · rcases hm2 with hm2 | ⟨hm2, hd2⟩
          · exact Or.inl (by rw [hm]; exact hm2)
          · exact Or.inr ⟨hm.trans hm2, hLEt hd hd2⟩⟩

instance : IsTotal EventRow eventRel :=
  ⟨fun a b => by
    have hTri : ∀ x y : Option Int, optLT x y = true ∨ x = y ∨
        optLT y x = true := by
      intro x y
      cases x <;> cases y <;> simp [optLT] <;> omega
    have hLEtot : ∀ x y : Option Int, optLE x y = true ∨ optLE y x = true := by
      intro x y
      cases x <;> cases y <;> simp [optLE] <;> omega
    simp only [eventRel, eventLE, Bool.or_eq_true, Bool.and_eq_true,
      beq_iff_eq]
    rcases hTri a.year b.year with h | h | h
    · exact Or.inl (Or.inl h)
    · rcases hTri a.month b.month with h2 | h2 | h2
      · exact Or.inl (Or.inr ⟨h, Or.inl h2⟩)
      · rcases hLEtot a.day b.day with h3 | h3
        · exact Or.inl (Or.inr ⟨h, Or.inr ⟨h2, h3⟩⟩)
        · exact Or.inr (Or.inr ⟨h.symm, Or.inr ⟨h2.symm, h3⟩⟩)
      · exact Or.inr (Or.inr ⟨h.symm, Or.inl h2⟩)
    · exact Or.inr (Or.inl h)⟩

/-- Success payload of `list_person_events`. -/
structure EventsData where
  count : Nat
  events : List EventRow
deriving DecidableEq

/-- Tool `list_person_events` (server.py lines 252-270): validates
`person_id`, selects the person's events ordered by year, month, day
ascending with NULLS LAST. -/
def list_person_events (person_id : String) (db : DB) : DB × Resp EventsData :=
  if person_id = "" then (db, Resp.err "missing_person_id" [])
  else
    let evs :=
      (db.events.filter (fun e => e.person_id == person_id)).insertionSort eventRel
    ({ db with connOpens := db.connOpens + 1 }, Resp.ok ⟨evs.length, evs⟩)

/-- SQL upsert of `log_crawl` (server.py lines 526-534):
`INSERT ... ON CONFLICT (url) DO UPDATE SET last_seen = NOW(),
http_status = EXCLUDED.http_status, content_hash = EXCLUDED.content_hash,
notes = EXCLUDED.notes`.  The unique index on `url` guarantees at most one
conflicting row; a fresh row takes `first_seen = last_seen = now` and
`processed = false` from the schema defaults. -/
def upsertCrawl (now : Nat) (u : String) (s : Int) (h n : Option String) :
    List CrawlRow → List CrawlRow
  | [] => [⟨u, s, h, n, false, now, now⟩]
  | r :: rest =>
      if r.url = u then
        { r with http_status := s, content_hash := h, notes := n, last_seen := now } :: rest
      else r :: upsertCrawl now u s h n rest

/-- Success payload of `log_crawl`. -/
structure UrlData where
  url : String
deriving DecidableEq

/-- Tool `log_crawl` (server.py lines 514-537): validates `url`, then
upserts the crawl row keyed by URL, normalizing empty hash/notes to NULL. -/
def log_crawl (now : Nat) (url : String) (http_status : Int)
    (content_hash notes : String) (db : DB) : DB × Resp UrlData :=
  if url = "" then (db, Resp.err "missing_url" [])
  else
    ({ db with
        crawlLog := upsertCrawl now url http_status (strToOpt content_hash)
          (strToOpt notes) db.crawlLog,
        connOpens := db.connOpens + 1 },
     Resp.ok ⟨url⟩)

/-- Success payload of `mark_crawl_processed`. -/
structure ProcessedData where
  url : String
  processed : Bool
deriving DecidableEq

/-- Tool `mark_crawl_processed` (server.py lines 559-569): validates `url`,
runs `UPDATE crawl_log SET processed = TRUE WHERE url = %s` (affecting zero
or more rows), and unconditionally reports success. -/
def mark_crawl_processed (url : String) (db : DB) : DB × Resp ProcessedData :=
  if url = "" then (db, Resp.err "missing_url" [])
  else
    ({ db with
        crawlLog := db.crawlLog.map (fun r =>
          if r.url = url then { r with processed := true } else r),
        connOpens := db.connOpens + 1 },
     Resp.ok ⟨url, true⟩)

/-- Success payload of `set_person_verified`. -/
structure VerifiedData where
  person_id : String
  verified : Bool
deriving DecidableEq

/-- Tool `set_person_verified` (server.py lines 572-584): validates
`person_id`, runs an UPDATE on the matching rows (possibly none), and
unconditionally reports success. -/
def set_person_verified (person_id : String) (verified : Bool) (db : DB) :
    DB × Resp VerifiedData :=
  if person_id = "" then (db, Resp.err "missing_person_id" [])
  else
    ({ db with
        persons := db.persons.map (fun r =>
          if r.person_id = person_id then { r with verified := verified } else r),
        connOpens := db.connOpens + 1 },
     Resp.ok ⟨person_id, verified⟩)

/-- Success payload of `set_person_status`. -/
structure StatusData where
  person_id : String
  status : String
deriving DecidableEq

/-- Tool `set_person_status` (server.py lines 587-605): validates
`person_id` and `status`, sets `research_status` and `research_notes`
(empty notes become NULL) on the matching rows (possibly none), and
unconditionally reports success. -/
def set_person_status (person_id status notes : String) (db : DB) :
    DB × Resp StatusData :=
  if person_id = "" then (db, Resp.err "missing_person_id" [])
  else if status = "" then (db, Resp.err "missing_status" [])
  else
    ({ db with
        persons := db.persons.map (fun r =>
          if r.person_id = person_id then
            { r with research_status := some status, research_notes := strToOpt notes }
          else r),
        connOpens := db.connOpens + 1 },
     Resp.ok ⟨person_id, status⟩)

/-- Success payload of `add_relationship`. -/
structure RelIdData where
  relationship_id : String
deriving DecidableEq

/-- Tool `add_relationship` (server.py lines 715-748): validates both
person identifiers and the relation type, then inserts one row storing the
confidence score as passed. -/
def add_relationship (rid person_id_a person_id_b relation_type : String)
    (confidence_score : Rat) (notes : String) (db : DB) : DB × Resp RelIdData :=
  if person_id_a = "" ∨ person_id_b = "" then
    (db, Resp.err "missing_person_ids" [])
  else if relation_type = "" then (db, Resp.err "missing_relation_type" [])
  else
    ({ db with
        relationships := db.relationships ++
          [⟨rid, person_id_a, person_id_b, relation_type, confidence_score,
            strToOpt notes⟩],
        connOpens := db.connOpens + 1 },
     Resp.ok ⟨rid⟩)

/-- Success payload of `get_person_relationships`. -/
structure RelsData where
  count : Nat
  relationships : List RelationshipRow
deriving DecidableEq

/-- Tool `get_person_relationships` (server.py lines 751-770): validates
`person_id`, selects rows `WHERE person_id_a = %s OR person_id_b = %s`. -/
def get_person_relationships (person_id : String) (db : DB) :
    DB × Resp RelsData :=
  if person_id = "" then (db, Resp.err "missing_person_id" [])
  else
    let rows := db.relationships.filter (fun r =>
      r.person_id_a == person_id || r.person_id_b == person_id)
    ({ db with connOpens := db.connOpens + 1 }, Resp.ok ⟨rows.length, rows⟩)

/-- Success payload of `set_possible_duplicate_of`. -/
structure DupData where
  person_id : String
  duplicate_of : String
deriving DecidableEq

/-- Note text appended by `set_possible_duplicate_of` (server.py lines
786-788): empty when `notes` is empty. -/
def dupNote (notes : String) : String :=
  if notes = "" then "" else "\n[Possible duplicate noted] " ++ notes

/-- Tool `set_possible_duplicate_of` (server.py lines 773-801): validates
both identifiers, then on matching rows sets `possible_duplicate_of` and
appends the note text to `COALESCE(research_notes, '')`; unconditionally
reports success. -/
def set_possible_duplicate_of (person_id duplicate_of notes : String)
    (db : DB) : DB × Resp DupData :=
  if person_id = "" ∨ duplicate_of = "" then
    (db, Resp.err "missing_person_id" [])
  else
    ({ db with
        persons := db.persons.map (fun r =>
          if r.person_id = person_id then
            { r with
                possible_duplicate_of := some duplicate_of,
                research_notes :=
                  some ((r.research_notes.getD "") ++ dupNote notes) }
          else r),
        connOpens := db.connOpens + 1 },
     Resp.ok ⟨person_id, duplicate_of⟩)

/-- Outcome of `requests.get(url, timeout=20)`: a response with a status
code and body bytes, or a raised exception with message `str(e)`. -/
inductive HttpOutcome where
  | resp (status : Nat) (content : List Nat)
  | exn (msg : String)
deriving DecidableEq

/-- External effect oracle for the attachment fetcher: the HTTP client and
the filesystem (`writeErr p = some msg` means writing path `p` raises an
exception with message `msg`). -/
structure Eff where
  http : String → HttpOutcome
  writeErr : String → Option String

/-- Save path of a fetched attachment: `/attachments/<attachment_id>.bin`
(server.py lines 653, 682-683). -/
def savedPath (attId : String) : String := "/attachments/" ++ attId ++ ".bin"

/-- One entry of the `results` list of `fetch_attachments_for_person`:
either `{attachment_id, saved_path}` or `{attachment_id, error}`. -/
inductive ItemResult where
  | saved (attachment_id saved_path : String)
  | failed (attachment_id error : String)
deriving DecidableEq

/-- Eligibility filter of the fetcher's SELECT (server.py lines 657-667):
`person_id = %s AND should_fetch = TRUE AND fetched = FALSE AND
download_url IS NOT NULL`. -/
def eligibleAtt (person_id : String) (a : AttachmentRow) : Bool :=
  a.person_id == some person_id && a.should_fetch && !a.fetched &&
    a.download_url.isSome

/-- The fetcher's SELECT: the `(attachment_id, download_url)` pairs of the
eligible rows, in table order. -/
def selectPending (person_id : String) (atts : List AttachmentRow) :
    List (String × String) :=
  atts.filterMap (fun a =>
    if eligibleAtt person_id a then
      a.download_url.map (fun u => (a.attachment_id, u))
    else none)

/-- The per-row UPDATE run on success (server.py lines 685-694): set
`file_path`, `file_type = 'binary'`, `fetched = TRUE` on rows with the
given attachment id. -/
def attUpdate (attId p : String) (a : AttachmentRow) : AttachmentRow :=
  if a.attachment_id = attId then
    { a with file_path := some p, file_type := some "binary", fetched := true }
  else a

/-- Body of one loop iteration of the fetcher (server.py lines 669-707):
GET the URL; a non-200 status yields an `error: http_status=<code>` item
with no row change; otherwise write the bytes and update the row; any
exception from the GET or the write yields an `error: <message>` item with
no row change. -/
def fetchOne (eff : Eff) (attId url : String) (atts : List AttachmentRow) :
    List AttachmentRow × ItemResult :=
  match eff.http url with
  | HttpOutcome.exn msg => (atts, ItemResult.failed attId msg)
  | HttpOutcome.resp status _content =>
      if status ≠ 200 then
        (atts, ItemResult.failed attId ("http_status=" ++ toString status))
      else
        match eff.writeErr (savedPath attId) with
        | some msg => (atts, ItemResult.failed attId msg)
        | none =>
            (atts.map (attUpdate attId (savedPath attId)),
             ItemResult.saved attId (savedPath attId))

/-- The fetcher's loop over the selected rows, threading the attachments
table and accumulating one result item per row in row order. -/
def fetchLoop (eff : Eff) :
    List (String × String) → List AttachmentRow →
      List AttachmentRow × List ItemResult
  | [], atts => (atts, [])
  | (attId, url) :: rest, atts =>
      let step := fetchOne eff attId url atts
      let next := fetchLoop eff rest step.1
      (next.1, step.2 :: next.2)

/-- Success payload of `fetch_attachments_for_person`. -/
structure FetchData where
  person_id : String
  results : List ItemResult
deriving DecidableEq

/-- Tool `fetch_attachments_for_person` (server.py lines 643-708):
validates `person_id`, selects the eligible rows, runs the sequential
download loop, and returns `{person_id, results}`. -/
def fetch_attachments_for_person (eff : Eff) (person_id : String) (db : DB) :
    DB × Resp FetchData :=
  if person_id = "" then (db, Resp.err "missing_person_id" [])
  else
    let pending := selectPending person_id db.attachments
    let out := fetchLoop eff pending db.attachments
    ({ db with attachments := out.1, connOpens := db.connOpens + 1 },
     Resp.ok ⟨person_id, out.2⟩)

/-- Concrete events for a person with years 1900, NULL, 1850 (in insertion
order), used to exercise `list_person_events`. -/
def ev1900 : EventRow :=
  ⟨"e1", "p1", "census", none, some 1900, none, none, none, none, none, none⟩

/-- Concrete event with NULL year. -/
def evNone : EventRow :=
  ⟨"e2", "p1", "residence", none, none, none, none, none, none, none, none⟩

/-- Concrete event with year 1850. -/
def ev1850 : EventRow :=
  ⟨"e3", "p1", "birth", none, some 1850, none, none, none, none, none, none⟩

/-- Database holding the three events above. -/
def eventsDB : DB := { emptyDB with events := [ev1900, evNone, ev1850] }

/-- Relationship where person `pX` appears as side A. -/
def relA : RelationshipRow := ⟨"r1", "pX", "pY", "parent", 1, none⟩

/-- Relationship where person `pX` appears as side B. -/
def relB : RelationshipRow := ⟨"r2", "pZ", "pX", "child", 1, none⟩

/-- Relationship not involving `pX`. -/
def relC : RelationshipRow := ⟨"r3", "pY", "pZ", "sibling", 1, none⟩

/-- Database holding the three relationships above. -/
def relsDB : DB := { emptyDB with relationships := [relA, relB, relC] }

/-- A person with pre-existing research notes. -/
def notedPerson : PersonRow :=
  ⟨"p1", some "Jan", none, some "Vries", none, none, none, none, none, 1,
   false, none, some "old notes", none⟩

/-- Database holding the noted person. -/
def notesDB : DB := { emptyDB with persons := [notedPerson] }

/-- Eligible attachment row whose URL will answer 404. -/
def attA : AttachmentRow :=
  ⟨"attA", some "p1", none, none, none, none, none, some "http://u1", true, false⟩

/-- Eligible attachment row whose URL will raise a connection error. -/
def attB : AttachmentRow :=
  ⟨"attB", some "p1", none, none, none, none, none, some "http://u2", true, false⟩

/-- Eligible attachment row whose URL will answer 200. -/
def attC : AttachmentRow :=
  ⟨"attC", some "p1", none, none, none, none, none, some "http://u3", true, false⟩

/-- Database holding the three attachment rows above. -/
def fetchDB : DB := { emptyDB with attachments := [attA, attB, attC] }

/-- Effect oracle for the three-row fetch scenario: 404 on the first URL,
a connection error on the second, 200 on the third, writes succeed. -/
def fetchEff : Eff :=
  ⟨fun u =>
      if u = "http://u1" then HttpOutcome.resp 404 []
      else if u = "http://u2" then HttpOutcome.exn "connection refused"
      else HttpOutcome.resp 200 [7],
   fun _ => none⟩

/-- Helper: the fetch loop produces exactly one result item per selected
row, regardless of per-row outcomes. -/
theorem fetchLoop_length (eff : Eff) (rows : List (String × String))
    (atts : List AttachmentRow) :
    (fetchLoop eff rows atts).2.length = rows.length := by
  induction rows generalizing atts with
  | nil => rfl
  | cons r rest ih =>
      cases r with
      | mk attId url => simp [fetchLoop, ih]

/-- Claim C3: `add_person` called with both `given_name` and `surname`
empty always returns the `missing_name` error envelope and performs no
storage operation: the database (rows and connection counter) is returned
untouched. -/
theorem add_person_missing_name (pid pfx gender : String)
    (birthY deathY : Int) (notes fnn : String) (conf : Rat) (db : DB) :
    add_person pid "" pfx "" gender birthY deathY notes fnn conf db =
      (db, Resp.err "missing_name"
        [("message", "At least given_name or surname is required")]) := by
  simp [add_person]

/-- Claim C5: `find_persons_simple` clamps its limit to 1..100 with
default 10: nonpositive limits behave as 1, limits above 100 behave as
100, the clamp is idempotent, and the default 10 is left unchanged. -/
theorem find_persons_limit_clamp (q : String) (db : DB) (n m k : Int)
    (hn : n ≤ 0) (hm : 100 < m) :
    find_persons_simple q n db = find_persons_simple q 1 db ∧
    find_persons_simple q m db = find_persons_simple q 100 db ∧
    clampedLimit (clampedLimit k) = clampedLimit k ∧
    clampedLimit 10 = 10 := by
  have e1 : clampedLimit n = clampedLimit 1 := by unfold clampedLimit; omega
  have e2 : clampedLimit m = clampedLimit 100 := by unfold clampedLimit; omega
  refine ⟨?_, ?_, ?_, by rfl⟩
  · unfold find_persons_simple; rw [e1]
  · unfold find_persons_simple; rw [e2]
  · unfold clampedLimit; omega

/-- Witness for C5 at limit values -5, 1000 and 7. -/
theorem find_persons_limit_clamp_witness :
    (-5 : Int) ≤ 0 ∧ (100 : Int) < 1000 ∧
    (find_persons_simple "x" (-5) emptyDB = find_persons_simple "x" 1 emptyDB ∧
     find_persons_simple "x" 1000 emptyDB = find_persons_simple "x" 100 emptyDB ∧
     clampedLimit (clampedLimit 7) = clampedLimit 7 ∧
     clampedLimit 10 = 10) :=
  ⟨by decide, by decide,
   find_persons_limit_clamp "x" emptyDB (-5) 1000 7 (by decide) (by decide)⟩

/-- Claim C10: the field-update tools return the success envelope even
when no row matches the given identifier or URL, and the response is
independent of the database contents, so an update against a non-existent
record is indistinguishable in the response from one that modified a row;
none of them can return `not_found`. -/
theorem update_ops_return_ok (pid status dup notes url : String) (v : Bool)
    (db db2 : DB) (hp : pid ≠ "") (hs : status ≠ "") (hd : dup ≠ "")
    (hu : url ≠ "") :
    (set_person_verified pid v db).2 = Resp.ok ⟨pid, v⟩ ∧
    (set_person_status pid status notes db).2 = Resp.ok ⟨pid, status⟩ ∧
    (mark_crawl_processed url db).2 = Resp.ok ⟨url, true⟩ ∧
    (set_possible_duplicate_of pid dup notes db).2 = Resp.ok ⟨pid, dup⟩ ∧
    (set_person_verified pid v db).2 = (set_person_verified pid v db2).2 ∧
    (set_person_status pid status notes db).2 =
      (set_person_status pid status notes db2).2 ∧
    (mark_crawl_processed url db).2 = (mark_crawl_processed url db2).2 ∧
    (set_possible_duplicate_of pid dup notes db).2 =
      (set_possible_duplicate_of pid dup notes db2).2 := by
  simp [set_person_verified, set_person_status, mark_crawl_processed,
    set_possible_duplicate_of, hp, hs, hd, hu]

/-- Witness for C10 on an empty database, where no row matches any of the
given identifiers, and a non-empty database. -/
theorem update_ops_return_ok_witness :
    (set_person_verified "p9" true emptyDB).2 = Resp.ok ⟨"p9", true⟩ ∧
    (set_person_status "p9" "open" "" emptyDB).2 = Resp.ok ⟨"p9", "open"⟩ ∧
    (mark_crawl_processed "http://u" emptyDB).2 = Resp.ok ⟨"http://u", true⟩ ∧
    (set_possible_duplicate_of "p9" "p8" "" emptyDB).2 = Resp.ok ⟨"p9", "p8"⟩ ∧
    (set_person_verified "p9" true emptyDB).2 =
      (set_person_verified "p9" true notesDB).2 ∧
    (set_person_status "p9" "open" "" emptyDB).2 =
      (set_person_status "p9" "open" "" notesDB).2 ∧
    (mark_crawl_processed "http://u" emptyDB).2 =
      (mark_crawl_processed "http://u" notesDB).2 ∧
    (set_possible_duplicate_of "p9" "p8" "" emptyDB).2 =
      (set_possible_duplicate_of "p9" "p8" "" notesDB).2 :=
  update_ops_return_ok "p9" "open" "p8" "" "http://u" true emptyDB notesDB
    (by decide) (by decide) (by decide) (by decide)

/-- Claim C7: `get_person_relationships` retrieves exactly the rows in
which the person appears as side A or side B, with `count` equal to the
number of such rows. -/
theorem get_person_relationships_symmetric (pid : String) (db : DB)
    (h : pid ≠ "") :
    ∃ rows, (get_person_relationships pid db).2 = Resp.ok ⟨rows.length, rows⟩ ∧
      ∀ r, r ∈ rows ↔
        r ∈ db.relationships ∧ (r.person_id_a = pid ∨ r.person_id_b = pid) := by
  refine ⟨db.relationships.filter (fun r =>
      r.person_id_a == pid || r.person_id_b == pid), ?_, ?_⟩
  · simp [get_person_relationships, h]
  · intro r
    simp [List.mem_filter]

/-- Witness for C7 on a database where `pX` appears once as side A and
once as side B. -/
theorem get_person_relationships_symmetric_witness :
    ("pX" : String) ≠ "" ∧
    (∃ rows,
      (get_person_relationships "pX" relsDB).2 = Resp.ok ⟨rows.length, rows⟩ ∧
      ∀ r, r ∈ rows ↔
        r ∈ relsDB.relationships ∧
          (r.person_id_a = "pX" ∨ r.person_id_b = "pX")) :=
  ⟨by decide, get_person_relationships_symmetric "pX" relsDB (by decide)⟩

/-- Claim C8: `set_possible_duplicate_of` on a person with pre-existing
`research_notes` and a non-empty `notes` argument appends the duplicate
note to the existing notes (the prior text is preserved as a prefix of the
new value) and sets `possible_duplicate_of` to the given identifier. -/
theorem set_possible_duplicate_appends (pid dup notes old : String)
    (db : DB) (p : PersonRow) (hp : pid ≠ "") (hd : dup ≠ "")
    (hn : notes ≠ "") (hmem : p ∈ db.persons) (hpid : p.person_id = pid)
    (hold : p.research_notes = some old) :
    (set_possible_duplicate_of pid dup notes db).2 = Resp.ok ⟨pid, dup⟩ ∧
    ∃ q ∈ (set_possible_duplicate_of pid dup notes db).1.persons,
      q.research_notes =
        some (old ++ ("\n[Possible duplicate noted] " ++ notes)) ∧
      q.possible_duplicate_of = some dup ∧
      ∃ t, q.research_notes = some (old ++ t) := by
  have hcond : ¬ (pid = "" ∨ dup = "") := by simp [hp, hd]
  have hres : set_possible_duplicate_of pid dup notes db =
      ({ db with
          persons := db.persons.map (fun r : PersonRow =>
            if r.person_id = pid then
              { r with
                  possible_duplicate_of := some dup,
                  research_notes :=
                    some ((r.research_notes.getD "") ++ dupNote notes) }
            else r),
          connOpens := db.connOpens + 1 },
       Resp.ok ⟨pid, dup⟩) := by
    unfold set_possible_duplicate_of
    rw [if_neg hcond]
  rw [hres]
  refine ⟨rfl, ?_⟩
  refine ⟨_, List.mem_map_of_mem (fun r : PersonRow =>
      if r.person_id = pid then
        { r with
            possible_duplicate_of := some dup,
            research_notes := some ((r.research_notes.getD "") ++ dupNote notes) }
      else r) hmem, ?_, ?_, ?_⟩
  · simp [hpid, hold, dupNote, hn]
  · simp [hpid]
  · exact ⟨"\n[Possible duplicate noted] " ++ notes,
      by simp [hpid, hold, dupNote, hn]⟩

/-- Witness for C8: the noted person gains the duplicate note after the
pre-existing text "old notes". -/
theorem set_possible_duplicate_appends_witness :
    (set_possible_duplicate_of "p1" "p2" "same birth" notesDB).2 =
      Resp.ok ⟨"p1", "p2"⟩ ∧
    ∃ q ∈ (set_possible_duplicate_of "p1" "p2" "same birth" notesDB).1.persons,
      q.research_notes =
        some ("old notes" ++ ("\n[Possible duplicate noted] " ++ "same birth")) ∧
      q.possible_duplicate_of = some "p2" ∧
      ∃ t, q.research_notes = some ("old notes" ++ t) :=
  set_possible_duplicate_appends "p1" "p2" "same birth" "old notes" notesDB
    notedPerson (by decide) (by decide) (by decide) (by decide) (by decide)
    (by decide)

/-- Helper: upserting makes the URL appear exactly once, provided it
appeared at most once before (the unique-URL invariant). -/
theorem upsertCrawl_countP_self (now : Nat) (u : String) (s : Int)
    (h n : Option String) (l : List CrawlRow)
    (hle : l.countP (fun r => r.url == u) ≤ 1) :
    (upsertCrawl now u s h n l).countP (fun r => r.url == u) = 1 := by
  induction l with
  | nil => simp [upsertCrawl]
  | cons r rest ih =>
      by_cases hr : r.url = u
      · simp only [upsertCrawl, hr, if_true, ite_true, List.countP_cons,
          beq_iff_eq, eq_self_iff_true] at hle ⊢
        omega
      · simp only [upsertCrawl, hr, if_false, ite_false, List.countP_cons,
          beq_iff_eq] at hle ⊢
        rw [Nat.add_zero]
        rw [Nat.add_zero] at hle
        exact ih hle

/-- Helper: upserting URL `u` does not change the row count of any other
URL `v`. -/
theorem upsertCrawl_countP_other (now : Nat) (u : String) (s : Int)
    (h n : Option String) (v : String) (hvu : v ≠ u) (l : List CrawlRow) :
    (upsertCrawl now u s h n l).countP (fun r => r.url == v) =
      l.countP (fun r => r.url == v) := by
  induction l with
  | nil =>
      simp [upsertCrawl, List.countP_cons, Ne.symm hvu]
  | cons r rest ih =>
      by_cases hr : r.url = u
      · simp [upsertCrawl, hr, List.countP_cons]
      · simp [upsertCrawl, hr, List.countP_cons, ih]

/-- Helper: after an upsert, the first row with the upserted URL carries
exactly the upserted status, hash, notes and timestamp. -/
theorem upsertCrawl_find (now : Nat) (u : String) (s : Int)
    (h n : Option String) (l : List CrawlRow) :
    ∃ r, (upsertCrawl now u s h n l).find? (fun r => r.url == u) = some r ∧
      r.url = u ∧ r.http_status = s ∧ r.content_hash = h ∧ r.notes = n ∧
      r.last_seen = now := by
  induction l with
  | nil =>
      refine ⟨⟨u, s, h, n, false, now, now⟩, ?_, rfl, rfl, rfl, rfl, rfl⟩
      simp [upsertCrawl, List.find?_cons]
  | cons r rest ih =>
      by_cases hr : r.url = u
      · exact ⟨{ r with http_status := s, content_hash := h, notes := n, last_seen := now },
          by simp [upsertCrawl, hr, List.find?_cons], hr, rfl, rfl, rfl, rfl⟩
      · obtain ⟨r2, hfind, hprops⟩ := ih
        refine ⟨r2, ?_, hprops⟩
        have hstep : upsertCrawl now u s h n (r :: rest) =
            r :: upsertCrawl now u s h n rest := by
          simp [upsertCrawl, hr]
        rw [hstep, List.find?_cons_of_neg _ (by simp [hr])]
        exact hfind

/-- Helper: the crawl table after a validated `log_crawl` call is the
upsert of the previous table. -/
theorem log_crawl_crawlLog (now : Nat) (url : String) (s : Int)
    (ch nts : String) (db : DB) (hu : url ≠ "") :
    (log_crawl now url s ch nts db).1.crawlLog =
      upsertCrawl now url s (strToOpt ch) (strToOpt nts) db.crawlLog := by
  unfold log_crawl
  rw [if_neg hu]

/-- Claim C4: calling `log_crawl` twice with the same URL leaves exactly
one crawl row for that URL, whose status, hash and notes equal the second
call's arguments and whose `last_seen` is the second (later) clock value;
the unique-URL invariant is preserved for every URL. -/
theorem log_crawl_upsert_unique (u : String) (s1 s2 : Int)
    (h1 n1 h2 n2 : String) (t1 t2 : Nat) (db : DB) (hu : u ≠ "")
    (huniq : ∀ v, db.crawlLog.countP (fun r => r.url == v) ≤ 1)
    (ht : t1 < t2) :
    ((log_crawl t2 u s2 h2 n2
        (log_crawl t1 u s1 h1 n1 db).1).1.crawlLog.countP
      (fun r => r.url == u)) = 1 ∧
    (∀ v, ((log_crawl t2 u s2 h2 n2
        (log_crawl t1 u s1 h1 n1 db).1).1.crawlLog.countP
      (fun r => r.url == v)) ≤ 1) ∧
    ∃ r, ((log_crawl t2 u s2 h2 n2
        (log_crawl t1 u s1 h1 n1 db).1).1.crawlLog.find?
      (fun r => r.url == u)) = some r ∧
      r.http_status = s2 ∧ r.content_hash = strToOpt h2 ∧
      r.notes = strToOpt n2 ∧ r.last_seen = t2 ∧ t1 < r.last_seen := by
  have hlog2 : (log_crawl t2 u s2 h2 n2
      (log_crawl t1 u s1 h1 n1 db).1).1.crawlLog =
      upsertCrawl t2 u s2 (strToOpt h2) (strToOpt n2)
        (upsertCrawl t1 u s1 (strToOpt h1) (strToOpt n1) db.crawlLog) := by
    rw [log_crawl_crawlLog t2 u s2 h2 n2 _ hu,
      log_crawl_crawlLog t1 u s1 h1 n1 db hu]
  have hafter1 : ∀ v,
      (upsertCrawl t1 u s1 (strToOpt h1) (strToOpt n1)
        db.crawlLog).countP (fun r => r.url == v) ≤ 1 := by
    intro v
    by_cases hv : v = u
    · subst hv
      rw [upsertCrawl_countP_self t1 v s1 (strToOpt h1) (strToOpt n1)
        db.crawlLog (huniq v)]
    · rw [upsertCrawl_countP_other t1 u s1 (strToOpt h1) (strToOpt n1) v hv
        db.crawlLog]
      exact huniq v
  refine ⟨?_, ?_, ?_⟩
  · rw [hlog2]
    exact upsertCrawl_countP_self t2 u s2 (strToOpt h2) (strToOpt n2) _
      (hafter1 u)
  · intro v
    rw [hlog2]
    by_cases hv : v = u
    · subst hv
      rw [upsertCrawl_countP_self t2 v s2 (strToOpt h2) (strToOpt n2) _
        (hafter1 v)]
    · rw [upsertCrawl_countP_other t2 u s2 (strToOpt h2) (strToOpt n2) v hv _]
      exact hafter1 v
  · obtain ⟨r, hfind, hurl, hst, hch, hn, hls⟩ :=
      upsertCrawl_find t2 u s2 (strToOpt h2) (strToOpt n2)
        (upsertCrawl t1 u s1 (strToOpt h1) (strToOpt n1) db.crawlLog)
    refine ⟨r, ?_, hst, hch, hn, hls, ?_⟩
    · rw [hlog2]
      exact hfind
    · rw [hls]
      exact ht

/-- Witness for C4: two `log_crawl` calls for the same URL on the empty
database at clock values 5 and 9. -/
theorem log_crawl_upsert_unique_witness :
    ("http://a" : String) ≠ "" ∧ (5 : Nat) < 9 ∧
    (((log_crawl 9 "http://a" 200 "hh" "nn"
        (log_crawl 5 "http://a" 404 "g" "m" emptyDB).1).1.crawlLog.countP
      (fun r => r.url == "http://a")) = 1 ∧
    (∀ v, ((log_crawl 9 "http://a" 200 "hh" "nn"
        (log_crawl 5 "http://a" 404 "g" "m" emptyDB).1).1.crawlLog.countP
      (fun r => r.url == v)) ≤ 1) ∧
    ∃ r, ((log_crawl 9 "http://a" 200 "hh" "nn"
        (log_crawl 5 "http://a" 404 "g" "m" emptyDB).1).1.crawlLog.find?
      (fun r => r.url == "http://a")) = some r ∧
      r.http_status = 200 ∧ r.content_hash = strToOpt "hh" ∧
      r.notes = strToOpt "nn" ∧ r.last_seen = 9 ∧ 5 < r.last_seen) :=
  ⟨by decide, by decide,
   log_crawl_upsert_unique "http://a" 404 200 "g" "m" "hh" "nn" 5 9 emptyDB
     (by decide) (fun v => by simp [emptyDB]) (by decide)⟩

/-- Claim C6: `list_person_events` returns the person's events ordered by
year, then month, then day, ascending with NULLS LAST (`eventRel`), as a
permutation of the person's event rows; in particular, a person with
events at years 1900, NULL, 1850 gets them back as [1850, 1900, NULL]. -/
theorem list_person_events_ordered (pid : String) (db : DB) (h : pid ≠ "") :
    (∃ evs, (list_person_events pid db).2 = Resp.ok ⟨evs.length, evs⟩ ∧
        List.Sorted eventRel evs ∧
        evs.Perm (db.events.filter (fun e => e.person_id == pid))) ∧
    (list_person_events "p1" eventsDB).2 =
      Resp.ok ⟨3, [ev1850, ev1900, evNone]⟩ ∧
    ev1850.year = some 1850 ∧ ev1900.year = some 1900 ∧ evNone.year = none := by
  refine ⟨⟨(db.events.filter (fun e => e.person_id == pid)).insertionSort
    eventRel, ?_, ?_, ?_⟩, by decide, rfl, rfl, rfl⟩
  · simp [list_person_events, h]
  · exact List.sorted_insertionSort eventRel _
  · exact List.perm_insertionSort eventRel _

/-- Witness for C6: the three-event database gives back the events in the
order 1850, 1900, NULL. -/
theorem list_person_events_ordered_witness :
    ("p1" : String) ≠ "" ∧
    (list_person_events "p1" eventsDB).2 =
      Resp.ok ⟨3, [ev1850, ev1900, evNone]⟩ :=
  ⟨by decide, (list_person_events_ordered "p1" eventsDB (by decide)).2.1⟩

/-- Claim C1: with three eligible rows answering 404, a connection error
and 200 in that order, `fetch_attachments_for_person` returns exactly
three result entries in row order — `{attachment_id, error:
"http_status=404"}`, `{attachment_id, error: <message>}`, `{attachment_id,
saved_path}` — and only the 200 row's `fetched` flag is set; the other two
rows are carried over unchanged (still `fetched = false`). -/
theorem fetch_attachments_three_rows (eff : Eff) (pid : String) (db : DB)
    (id1 u1 id2 u2 id3 u3 msg : String) (c1 c3 : List Nat)
    (hpid : pid ≠ "")
    (hsel : selectPending pid db.attachments = [(id1, u1), (id2, u2), (id3, u3)])
    (h1 : eff.http u1 = HttpOutcome.resp 404 c1)
    (h2 : eff.http u2 = HttpOutcome.exn msg)
    (h3 : eff.http u3 = HttpOutcome.resp 200 c3)
    (hw : eff.writeErr (savedPath id3) = none)
    (hne1 : id1 ≠ id3) (hne2 : id2 ≠ id3) :
    (fetch_attachments_for_person eff pid db).2 =
      Resp.ok ⟨pid,
        [ItemResult.failed id1 "http_status=404",
         ItemResult.failed id2 msg,
         ItemResult.saved id3 (savedPath id3)]⟩ ∧
    (fetch_attachments_for_person eff pid db).1.attachments =
      db.attachments.map (attUpdate id3 (savedPath id3)) ∧
    (∀ a ∈ db.attachments, a.attachment_id ≠ id3 →
      a ∈ (fetch_attachments_for_person eff pid db).1.attachments) ∧
    (∀ a ∈ db.attachments,
      a.attachment_id = id1 ∨ a.attachment_id = id2 →
        a ∈ (fetch_attachments_for_person eff pid db).1.attachments) ∧
    (∀ a ∈ db.attachments, a.attachment_id = id3 →
      ({ a with
          file_path := some (savedPath id3),
          file_type := some "binary",
          fetched := true } : AttachmentRow) ∈
        (fetch_attachments_for_person eff pid db).1.attachments) := by
  have hstr : ("http_status=" ++ toString (404 : Nat)) = "http_status=404" :=
    rfl
  have hloop : fetchLoop eff [(id1, u1), (id2, u2), (id3, u3)]
      db.attachments =
      (db.attachments.map (attUpdate id3 (savedPath id3)),
       [ItemResult.failed id1 "http_status=404",
        ItemResult.failed id2 msg,
        ItemResult.saved id3 (savedPath id3)]) := by
    simp [fetchLoop, fetchOne, h1, h2, h3, hw, hstr]
  have hmain : fetch_attachments_for_person eff pid db =
      ({ db with
          attachments := db.attachments.map (attUpdate id3 (savedPath id3)),
          connOpens := db.connOpens + 1 },
       Resp.ok ⟨pid,
        [ItemResult.failed id1 "http_status=404",
         ItemResult.failed id2 msg,
         ItemResult.saved id3 (savedPath id3)]⟩) := by
    simp [fetch_attachments_for_person, hpid, hsel, hloop]
  have hkeep : ∀ a ∈ db.attachments, a.attachment_id ≠ id3 →
      a ∈ (fetch_attachments_for_person eff pid db).1.attachments := by
    intro a ha hne
    rw [hmain]
    have hfix : attUpdate id3 (savedPath id3) a = a := by
      simp [attUpdate, hne]
    rw [← hfix]
    exact List.mem_map_of_mem _ ha
  refine ⟨?_, ?_, hkeep, ?_, ?_⟩
  · rw [hmain]
  · rw [hmain]
  · intro a ha hor
    rcases hor with h12 | h12
    · exact hkeep a ha (by rw [h12]; exact hne1)
    · exact hkeep a ha (by rw [h12]; exact hne2)
  · intro a ha heq
    rw [hmain]
    have hfix : attUpdate id3 (savedPath id3) a =
        { a with
            file_path := some (savedPath id3),
            file_type := some "binary",
            fetched := true } := by
      simp [attUpdate, heq]
    rw [← hfix]
    exact List.mem_map_of_mem _ ha

/-- Witness for C1: the concrete three-row database and effect oracle. -/
theorem fetch_attachments_three_rows_witness :
    (fetch_attachments_for_person fetchEff "p1" fetchDB).2 =
      Resp.ok ⟨"p1",
        [ItemResult.failed "attA" "http_status=404",
         ItemResult.failed "attB" "connection refused",
         ItemResult.saved "attC" (savedPath "attC")]⟩ ∧
    (fetch_attachments_for_person fetchEff "p1" fetchDB).1.attachments =
      fetchDB.attachments.map (attUpdate "attC" (savedPath "attC")) :=
  ⟨(fetch_attachments_three_rows fetchEff "p1" fetchDB "attA" "http://u1"
      "attB" "http://u2" "attC" "http://u3" "connection refused" [] [7]
      (by decide) (by decide) (by decide) (by decide) (by decide) (by decide)
      (by decide) (by decide)).1,
   (fetch_attachments_three_rows fetchEff "p1" fetchDB "attA" "http://u1"
      "attB" "http://u2" "attC" "http://u3" "connection refused" [] [7]
      (by decide) (by decide) (by decide) (by decide) (by decide) (by decide)
      (by decide) (by decide)).2.1⟩

/-- Claim C2: once validation passes, `fetch_attachments_for_person`
always returns the success envelope `{status: ok, data: {person_id,
results}}` for every effect oracle (any mix of per-row failures), and the
results list has exactly one entry per eligible row, so every per-row
failure is recorded as an item and processing continues. -/
theorem fetch_attachments_envelope_ok (eff : Eff) (pid : String) (db : DB)
    (h : pid ≠ "") :
    (fetch_attachments_for_person eff pid db).2 =
      Resp.ok ⟨pid,
        (fetchLoop eff (selectPending pid db.attachments) db.attachments).2⟩ ∧
    (fetchLoop eff (selectPending pid db.attachments) db.attachments).2.length =
      (selectPending pid db.attachments).length := by
  constructor
  · simp [fetch_attachments_for_person, h]
  · exact fetchLoop_length eff _ db.attachments

/-- Witness for C2 on the three-row database, where two of the three rows
fail. -/
theorem fetch_attachments_envelope_ok_witness :
    (fetch_attachments_for_person fetchEff "p1" fetchDB).2 =
      Resp.ok ⟨"p1",
        (fetchLoop fetchEff (selectPending "p1" fetchDB.attachments)
          fetchDB.attachments).2⟩ ∧
    (fetchLoop fetchEff (selectPending "p1" fetchDB.attachments)
        fetchDB.attachments).2.length =
      (selectPending "p1" fetchDB.attachments).length :=
  fetch_attachments_envelope_ok fetchEff "p1" fetchDB (by decide)

/-- Counterexample to claim C9: `add_person` and `add_relationship`
accept a confidence score of 2 and store it unchanged, producing records
whose confidence score lies outside 0.0-1.0. -/
theorem confidence_range_counterexample :
    (∃ r ∈ (add_person "pidX" "John" "" "Doe" "" 0 0 "" "" 2
        emptyDB).1.persons,
      ¬ (0 ≤ r.confidence_score ∧ r.confidence_score ≤ 1)) ∧
    (∃ r ∈ (add_relationship "ridX" "pa" "pb" "spouse" 2 ""
        emptyDB).1.relationships,
      ¬ (0 ≤ r.confidence_score ∧ r.confidence_score ≤ 1)) := by
  constructor
  · refine ⟨⟨"pidX", some "John", none, some "Doe", none, none, none, none,
      none, 2, false, none, none, none⟩, by decide, by decide⟩
  · refine ⟨⟨"ridX", "pa", "pb", "spouse", 2, none⟩, by decide, by decide⟩


/-- Claim C9 (amended): for every input confidence score (in range or
not), a validated `add_person` or `add_relationship` call appends exactly
one new record whose stored confidence score equals the input verbatim —
no clamping, no validation — and consequently the created record's score
lies within 0.0-1.0 if and only if the input does. -/
theorem confidence_stored_verbatim (pid gn pfx sn gender : String)
    (birthY deathY : Int) (notes fnn : String) (c : Rat)
    (rid pa pb rt : String) (c2 : Rat) (rnotes : String) (db : DB)
    (hname : ¬ (gn = "" ∧ sn = ""))
    (hids : ¬ (pa = "" ∨ pb = "")) (hrt : rt ≠ "") :
    (∃ r, (add_person pid gn pfx sn gender birthY deathY notes fnn c
          db).1.persons = db.persons ++ [r] ∧
      r.confidence_score = c ∧
      ((0 ≤ r.confidence_score ∧ r.confidence_score ≤ 1) ↔
        (0 ≤ c ∧ c ≤ 1))) ∧
    (∃ r, (add_relationship rid pa pb rt c2 rnotes db).1.relationships =
        db.relationships ++ [r] ∧
      r.confidence_score = c2 ∧
      ((0 ≤ r.confidence_score ∧ r.confidence_score ≤ 1) ↔
        (0 ≤ c2 ∧ c2 ≤ 1))) := by
  constructor
  · unfold add_person
    rw [if_neg hname]
    exact ⟨_, rfl, rfl, Iff.rfl⟩
  · unfold add_relationship
    rw [if_neg hids, if_neg hrt]
    exact ⟨_, rfl, rfl, Iff.rfl⟩

/-- Witness for the amended C9 at the out-of-range confidence score 2:
both records store 2 verbatim and are out of range. -/
theorem confidence_stored_verbatim_witness :
    ¬ (("Ann" : String) = "" ∧ ("Lee" : String) = "") ∧
    ¬ (("pa" : String) = "" ∨ ("pb" : String) = "") ∧
    ("spouse" : String) ≠ "" ∧
    ((∃ r, (add_person "pid2" "Ann" "" "Lee" "" 0 0 "" "" 2
          emptyDB).1.persons = emptyDB.persons ++ [r] ∧
      r.confidence_score = 2 ∧
      ((0 ≤ r.confidence_score ∧ r.confidence_score ≤ 1) ↔
        ((0 : Rat) ≤ 2 ∧ (2 : Rat) ≤ 1))) ∧
    (∃ r, (add_relationship "rid2" "pa" "pb" "spouse" 2 ""
          emptyDB).1.relationships = emptyDB.relationships ++ [r] ∧
      r.confidence_score = 2 ∧
      ((0 ≤ r.confidence_score ∧ r.confidence_score ≤ 1) ↔
        ((0 : Rat) ≤ 2 ∧ (2 : Rat) ≤ 1)))) :=
  ⟨by decide, by decide, by decide,
   confidence_stored_verbatim "pid2" "Ann" "" "Lee" "" 0 0 "" "" 2
     "rid2" "pa" "pb" "spouse" 2 "" emptyDB (by decide) (by decide)
     (by decide)⟩
